import Mathlib

/-!
# Verification of the lascheck LAS 2.0 validator

A shallow embedding of the validation core of the `lascheck` package
(`lascheck/las.py`, `lascheck/spec.py`) together with theorems settling the
frozen claims about it.

Conventions of the embedding:

* A parsed `LASFile` object is embedded as `LASState`: the six named sections
  (`Version`, `Well`, `Curves`, `Parameter`, `Ascii`, `Other`), the structural
  flags set during `read`, and the mutable per-instance lists
  (`non_conformities`, `duplicate_curves`, header errors).  A Python section
  that is absent from the `self.sections` dict is `none`.
* A header/curve item (`las_items.HeaderItem` / `CurveItem`; `las_items.py` is
  not part of the sources, its fields are reconstructed from their uses in
  `las.py`/`spec.py` and from the spec's data model) carries the canonical
  lookup mnemonic (`mnemonic`), the verbatim `original_mnemonic`, `unit` and
  the recorded line number (`getattr(curve, 'line_number', ...)` defaults are
  modelled by `Option`).
* Diagnostics appended to `self.non_conformities` are modelled structurally by
  the inductive `NonConformity`, one constructor per distinct message shape of
  `ERROR_MESSAGES` / the f-strings in `las.py`; the `tr` renaming of message
  prefixes to Russian display text is a display concern and is not modelled.
* A Python exception escaping a rule (e.g. the `IndexError` from
  `las_file.curves[0]` on an empty Curves section) is modelled by `none` in an
  `Option` result; the claims are all evaluated away from such states.
-/

/-- One parsed header line (`las_items.HeaderItem`/`CurveItem`): `mnemonic` is
the canonicalized lookup key (case policy plus duplicate-disambiguation
suffix), `original_mnemonic` the verbatim mnemonic, `unit` the unit token and
`line_number` the recorded source line (`none` when unrecorded). -/
structure HeaderItem where
  mnemonic : String
  original_mnemonic : String
  unit : String
  line_number : Option Nat
deriving DecidableEq, Repr

/-- The `self.sections` mapping of `LASFile`: `none` means the key is absent
from the dict.  `Ascii`/`Other` hold raw un-parsed text. -/
structure LASSections where
  version : Option (List HeaderItem)
  well : Option (List HeaderItem)
  curves : Option (List HeaderItem)
  parameter : Option (List HeaderItem)
  ascii : Option String
  other : Option String
deriving DecidableEq, Repr

/-- Diagnostics appended to `self.non_conformities`, one constructor per
distinct message shape produced by `las.py` (`read` and
`get_non_conformities`).  `hashCharacterInMnemonic` is the
"Hash character (#) in mnemonic" entry of `ERROR_MESSAGES`. -/
inductive NonConformity where
  | duplicate_v_section
  | duplicate_w_section
  | duplicate_c_section
  | duplicate_p_section
  | duplicate_o_section
  | missingMandatorySections (missing : List String)
  | missingMandatoryLinesInVSection
  | missingMandatoryLinesInWSection
  | invalidIndexMnemonic
  | vSectionNotFirst
  | sectionHavingBlankLine (name : String)
  | sectionsAfterASection
  | invalidUnitForDepth
  | invalidCharsInCurveMnemonic (index : Nat) (mnemonic : String) (chars : List Char)
  | invalidCharsInMnemonic (mnemonic : String) (sectionName : String) (chars : List Char)
  | mnemonicStartCurve (index : Nat) (mnemonic : String) (firstChar : Char)
  | mnemonicStartOther (mnemonic : String) (sectionName : String) (firstChar : Char)
  | duplicateCurveMnemonicsFound (descriptions : List (String × List (Option Nat)))
  | hashCharacterInMnemonic (mnemonic : String) (sectionName : String)
  | headerError (sectionName : String) (err : String)
deriving DecidableEq, Repr

/-- The fields of a `LASFile` instance that the validation claims touch:
the sections mapping, the structural flags set while reading, and the mutable
per-instance lists.  `header_errors` models, in section-iteration order, the
`(section name, raw line)` pairs that `get_all_header_errors` collects from
each section's `header_errors` attribute (recorded by the header parser;
`reader.py` is not in the sources). -/
structure LASState where
  sections : LASSections
  duplicate_v_section : Bool
  duplicate_w_section : Bool
  duplicate_p_section : Bool
  duplicate_c_section : Bool
  duplicate_o_section : Bool
  sections_after_a_section : Bool
  v_section_first : Bool
  blank_line_in_section : Bool
  sections_with_blank_line : List String
  non_conformities : List NonConformity
  duplicate_curves : List (String × List (Option Nat))
  header_errors : List (String × String)
deriving DecidableEq, Repr

/-- Modelled from the spec: `Section` lookup is "by canonical mnemonic"
(`las_items.SectionItems.__contains__`; `las_items.py` is not in the
sources) — `elem in section` holds when some item's lookup mnemonic equals
the key. -/
def hasMnemonic (sec : List HeaderItem) (key : String) : Bool :=
  sec.any fun it => it.mnemonic == key

/-- Modelled from the spec: `section[key].unit` — the unit of the first item
whose lookup mnemonic equals the key (`las_items.SectionItems.__getitem__`). -/
def unitOf (sec : List HeaderItem) (key : String) : Option String :=
  (sec.find? fun it => it.mnemonic == key).map (fun it => it.unit)

/-- Embeds `spec.MandatorySections.check`: Version, Well, Curves and Ascii present. -/
def MandatorySections.check (s : LASState) : Bool :=
  s.sections.version.isSome && s.sections.well.isSome &&
    s.sections.curves.isSome && s.sections.ascii.isSome

/-- Embeds `spec.MandatorySections.get_missing_mandatory_sections`. -/
def MandatorySections.get_missing_mandatory_sections (s : LASState) : List String :=
  (if s.sections.version.isNone then ["~V"] else []) ++
  (if s.sections.well.isNone then ["~W"] else []) ++
  (if s.sections.curves.isNone then ["~C"] else []) ++
  (if s.sections.ascii.isNone then ["~A"] else [])

/-- Embeds `spec.MandatoryLinesInVersionSection.check`: VERS and WRAP present in the
Version section; `False` when the section is absent. -/
def MandatoryLinesInVersionSection.check (s : LASState) : Bool :=
  match s.sections.version with
  | none => false
  | some v => ["VERS", "WRAP"].all fun m => hasMnemonic v m

/-- Embeds `spec.MandatoryLinesInWellSection.check`: the ten unconditional mnemonics,
plus UWI-or-API, plus one of PROV/CNTY/CTRY/STAT; `False` when the Well
section is absent. -/
def MandatoryLinesInWellSection.check (s : LASState) : Bool :=
  match s.sections.well with
  | none => false
  | some w =>
    if !(["STRT", "STOP", "STEP", "NULL", "COMP", "WELL", "FLD", "LOC", "SRVC", "DATE"].all
          fun m => hasMnemonic w m) then
      false
    else if !(hasMnemonic w "UWI") && !(hasMnemonic w "API") then
      false
    else if !(hasMnemonic w "PROV") && !(hasMnemonic w "CNTY") &&
            !(hasMnemonic w "CTRY") && !(hasMnemonic w "STAT") then
      false
    else
      true

/-- Embeds `spec.ValidIndexMnemonic.check`: with no Curves section the trailing
`return False` is reached; with a Curves section the first curve is indexed
(`las_file.curves[0]`), which raises `IndexError` on an empty section —
modelled by `none`. -/
def ValidIndexMnemonic.check (s : LASState) : Option Bool :=
  match s.sections.curves with
  | none => some false
  | some [] => none
  | some (c0 :: _) =>
    some (c0.mnemonic == "DEPT" || c0.mnemonic == "DEPTH" ||
          c0.mnemonic == "TIME" || c0.mnemonic == "INDEX")

/-- Embeds `spec.ValidUnitForDepth.check`: vacuously `True` unless Curves and Well
exist and STRT/STOP/STEP are all in Well; then, for an index curve named
DEPT/DEPTH, the unit must be M/F/FT and equal the STRT/STOP/STEP units.
`none` models the `IndexError` from `curves[0]` on an empty Curves section. -/
def ValidUnitForDepth.check (s : LASState) : Option Bool :=
  match s.sections.curves, s.sections.well with
  | some cs, some w =>
    if hasMnemonic w "STRT" && hasMnemonic w "STOP" && hasMnemonic w "STEP" then
      match cs with
      | [] => none
      | c0 :: _ =>
        if c0.mnemonic == "DEPT" || c0.mnemonic == "DEPTH" then
          some ((c0.unit == "M" || c0.unit == "F" || c0.unit == "FT") &&
                unitOf w "STRT" == some c0.unit &&
                unitOf w "STOP" == some c0.unit &&
                unitOf w "STEP" == some c0.unit)
        else
          some true
    else
      some true
  | _, _ => some true

/-- Embeds `spec.VSectionFirst.check`. -/
def VSectionFirst.check (s : LASState) : Bool :=
  s.v_section_first

/-- Embeds `spec.BlankLineInSection.check`. -/
def BlankLineInSection.check (s : LASState) : Bool :=
  !s.blank_line_in_section

/-- One character of the class `[A-Za-z0-9_\-\.]` of
`ValidMnemonicCharacters.VALID_PATTERN`. -/
def isValidMnemChar (c : Char) : Bool :=
  c.isAlpha || c.isDigit || c == '_' || c == '-' || c == '.'

/-- Embeds `VALID_PATTERN.match(m)` for `^[A-Za-z0-9_\-\.]+$`: a nonempty string of
characters from the class. -/
def validMnemonic (m : String) : Bool :=
  !m.isEmpty && m.toList.all isValidMnemChar

/-- One character of `ValidMnemonicCharacters.SPECIAL_CHARS_PATTERN`
(`[#@!$%^&*()\[\]{};:"'<>?\\|` ++ "`" ++ `~+=]`); the quote, apostrophe,
backslash, braces and backtick are written via their code points. -/
def isSpecialChar (c : Char) : Bool :=
  c == '#' || c == '@' || c == '!' || c == '$' || c == '%' || c == '^' ||
  c == '&' || c == '*' || c == '(' || c == ')' || c == '[' || c == ']' ||
  c == Char.ofNat 123 || c == Char.ofNat 125 || c == ';' || c == ':' ||
  c == Char.ofNat 34 || c == Char.ofNat 39 || c == '<' || c == '>' ||
  c == '?' || c == Char.ofNat 92 || c == '|' || c == Char.ofNat 96 ||
  c == '~' || c == '+' || c == '='

/-- Embeds `SPECIAL_CHARS_PATTERN.findall(m)`. -/
def specialCharsOf (m : String) : List Char :=
  m.toList.filter isSpecialChar

/-- Embeds `spec.ValidMnemonicCharacters.check_curves`: curve mnemonics are judged on
`curve.original_mnemonic`; a missing Curves section passes. -/
def ValidMnemonicCharacters.check_curves (s : LASState) : Bool :=
  (s.sections.curves.getD []).all fun c => validMnemonic c.original_mnemonic

/-- Embeds `spec.ValidMnemonicCharacters.check_well_section`: well items are judged
on `item.mnemonic` (the canonicalized lookup key, not `original_mnemonic`). -/
def ValidMnemonicCharacters.check_well_section (s : LASState) : Bool :=
  (s.sections.well.getD []).all fun it => validMnemonic it.mnemonic

/-- Embeds `spec.ValidMnemonicCharacters.check_parameters`: parameter items are
judged on `item.mnemonic`. -/
def ValidMnemonicCharacters.check_parameters (s : LASState) : Bool :=
  (s.sections.parameter.getD []).all fun it => validMnemonic it.mnemonic

/-- Embeds `spec.ValidMnemonicCharacters.check`. -/
def ValidMnemonicCharacters.check (s : LASState) : Bool :=
  ValidMnemonicCharacters.check_curves s &&
  ValidMnemonicCharacters.check_well_section s &&
  ValidMnemonicCharacters.check_parameters s

/-- The entries of `ValidMnemonicCharacters.get_invalid_mnemonics`: the curve
dicts carry the 1-based index, the well/parameter dicts the section name via
their variant. -/
inductive InvalidMnemonicEntry where
  | curve (index : Nat) (line_number : Option Nat) (mnemonic : String) (special_chars : List Char)
  | well (line_number : Option Nat) (mnemonic : String) (special_chars : List Char)
  | param (line_number : Option Nat) (mnemonic : String) (special_chars : List Char)
deriving DecidableEq, Repr

/-- Embeds `spec.ValidMnemonicCharacters.get_invalid_mnemonics`: curves (on
`original_mnemonic`, with index `i + 1`), then well items, then parameter
items (both on `mnemonic`). -/
def ValidMnemonicCharacters.get_invalid_mnemonics (s : LASState) : List InvalidMnemonicEntry :=
  ((s.sections.curves.getD []).enum.filterMap fun p =>
    if validMnemonic p.2.original_mnemonic then none
    else some (.curve (p.1 + 1) p.2.line_number p.2.original_mnemonic
                 (specialCharsOf p.2.original_mnemonic))) ++
  ((s.sections.well.getD []).filterMap fun it =>
    if validMnemonic it.mnemonic then none
    else some (.well it.line_number it.mnemonic (specialCharsOf it.mnemonic))) ++
  ((s.sections.parameter.getD []).filterMap fun it =>
    if validMnemonic it.mnemonic then none
    else some (.param it.line_number it.mnemonic (specialCharsOf it.mnemonic)))

/-- Embeds `spec.NoHashInMnemonics.check`: no `#` in any curve/well/parameter
`mnemonic`; absent sections are skipped. -/
def NoHashInMnemonics.check (s : LASState) : Bool :=
  ((s.sections.curves.getD []).all fun c => !(c.mnemonic.toList.contains '#')) &&
  ((s.sections.well.getD []).all fun it => !(it.mnemonic.toList.contains '#')) &&
  ((s.sections.parameter.getD []).all fun it => !(it.mnemonic.toList.contains '#'))

/-- Embeds `spec.MnemonicStartsWithLetter.check`: every nonempty `mnemonic` starts
with an alphabetic character. -/
def MnemonicStartsWithLetter.check (s : LASState) : Bool :=
  ((s.sections.curves.getD []).all fun c =>
    match c.mnemonic.toList with
    | [] => true
    | ch :: _ => ch.isAlpha) &&
  ((s.sections.well.getD []).all fun it =>
    match it.mnemonic.toList with
    | [] => true
    | ch :: _ => ch.isAlpha) &&
  ((s.sections.parameter.getD []).all fun it =>
    match it.mnemonic.toList with
    | [] => true
    | ch :: _ => ch.isAlpha)

/-- The entries of `MnemonicStartsWithLetter.get_invalid_starting_mnemonics`. -/
inductive InvalidStartEntry where
  | curve (index : Nat) (mnemonic : String) (first_char : Char)
  | well (mnemonic : String) (first_char : Char)
  | param (mnemonic : String) (first_char : Char)
deriving DecidableEq, Repr

/-- Embeds `spec.MnemonicStartsWithLetter.get_invalid_starting_mnemonics`. -/
def MnemonicStartsWithLetter.get_invalid_starting_mnemonics (s : LASState) : List InvalidStartEntry :=
  ((s.sections.curves.getD []).enum.filterMap fun p =>
    match p.2.mnemonic.toList with
    | [] => none
    | ch :: _ => if ch.isAlpha then none else some (.curve (p.1 + 1) p.2.mnemonic ch)) ++
  ((s.sections.well.getD []).filterMap fun it =>
    match it.mnemonic.toList with
    | [] => none
    | ch :: _ => if ch.isAlpha then none else some (.well it.mnemonic ch)) ++
  ((s.sections.parameter.getD []).filterMap fun it =>
    match it.mnemonic.toList with
    | [] => none
    | ch :: _ => if ch.isAlpha then none else some (.param it.mnemonic ch))

/-- The scan of `spec.DuplicateCurves.check`: `true` as soon as a curve's
`original_mnemonic` was already seen. -/
def hasDuplicateOriginalMnemonic : List HeaderItem → List String → Bool
  | [], _ => false
  | c :: rest, seen =>
    if seen.contains c.original_mnemonic then true
    else hasDuplicateOriginalMnemonic rest (c.original_mnemonic :: seen)

/-- Embeds `spec.DuplicateCurves.check`: `True` (no duplicates) when the Curves
section is absent. -/
def DuplicateCurves.check (s : LASState) : Bool :=
  match s.sections.curves with
  | none => true
  | some cs => !(hasDuplicateOriginalMnemonic cs [])

/-- The `curve_info` accumulation of
`DuplicateCurves.get_duplicate_curves_with_lines`: an insertion-ordered map
from `original_mnemonic` to the recorded line numbers (a missing
`line_number`, Python's `'unknown'`, is `none`). -/
def addCurveLine (acc : List (String × List (Option Nat))) (k : String) (v : Option Nat) :
    List (String × List (Option Nat)) :=
  match acc with
  | [] => [(k, [v])]
  | (k', vs) :: rest =>
    if k' == k then (k', vs ++ [v]) :: rest else (k', vs) :: addCurveLine rest k v

/-- Embeds `spec.DuplicateCurves.get_duplicate_curves_with_lines`: group the curves'
line numbers by `original_mnemonic` and keep the groups with more than one
entry. -/
def DuplicateCurves.get_duplicate_curves_with_lines (s : LASState) :
    List (String × List (Option Nat)) :=
  match s.sections.curves with
  | none => []
  | some cs =>
    (cs.foldl (fun acc c => addCurveLine acc c.original_mnemonic c.line_number) []).filter
      fun p => decide (1 < p.2.length)

/-- Embeds `LASFile.get_all_header_errors`: one `headerError` diagnostic per recorded
`(section name, raw line)` pair, in section-iteration order. -/
def LASFile.get_all_header_errors (s : LASState) : List NonConformity :=
  s.header_errors.map fun p => NonConformity.headerError p.1 p.2

/-- The message synthesized at las.py 617-626 for one invalid-mnemonic entry:
the curve form carries the 1-based index, the well/parameter form the section
name; the recorded line number is collected but not part of the message. -/
def invalidCharsDiag : InvalidMnemonicEntry → NonConformity
  | .curve i _ m cs => .invalidCharsInCurveMnemonic i m cs
  | .well _ m cs => .invalidCharsInMnemonic m "~W" cs
  | .param _ m cs => .invalidCharsInMnemonic m "~P" cs

/-- The message synthesized at las.py 631-640 for one bad-start entry. -/
def invalidStartDiag : InvalidStartEntry → NonConformity
  | .curve i m c => .mnemonicStartCurve i m c
  | .well m c => .mnemonicStartOther m "~W" c
  | .param m c => .mnemonicStartOther m "~P" c

/-- The `duplicate_curves` value computed inside the guarded branch at
las.py 642-645: the duplicate groups when the Curves section exists and
`DuplicateCurves.check` fails, `[]` otherwise. -/
def dupCandidates (s : LASState) : List (String × List (Option Nat)) :=
  if s.sections.curves.isSome && !(DuplicateCurves.check s) then
    DuplicateCurves.get_duplicate_curves_with_lines s
  else
    []

/-- The duplicate-curves diagnostics appended at las.py 646-658.  Because both
`duplicate_descriptions.append` and `self.non_conformities.append` sit outside
the `for mnemonic, line_numbers in duplicate_curves.items()` loop, a single
diagnostic is appended and it describes only the loop's final group. -/
def dupCurvesDiags (s : LASState) : List NonConformity :=
  match (dupCandidates s).getLast? with
  | some last => [.duplicateCurveMnemonicsFound [last]]
  | none => []

/-- The diagnostics `LASFile.get_non_conformities` appends to
`self.non_conformities` during one call, in the order of las.py 586-662.
`none` models an uncaught exception (the `IndexError` from `curves[0]` on an
empty Curves section at las.py 596/610); the partial appends preceding such an
exception are not modelled, the claims stay away from those states. -/
def freshNonConformities (s : LASState) : Option (List NonConformity) :=
  match (if s.sections.curves.isSome then ValidIndexMnemonic.check s else some true),
        ValidUnitForDepth.check s with
  | some idxOk, some depthOk =>
    some (
      (if MandatorySections.check s then []
       else [.missingMandatorySections (MandatorySections.get_missing_mandatory_sections s)]) ++
      (if s.sections.version.isSome && !(MandatoryLinesInVersionSection.check s) then
        [.missingMandatoryLinesInVSection] else []) ++
      (if !(MandatoryLinesInWellSection.check s) then [.missingMandatoryLinesInWSection] else []) ++
      (if !idxOk then [.invalidIndexMnemonic] else []) ++
      (if !(VSectionFirst.check s) then [.vSectionNotFirst] else []) ++
      (if !(BlankLineInSection.check s) then
        s.sections_with_blank_line.map NonConformity.sectionHavingBlankLine else []) ++
      (if s.sections_after_a_section then [.sectionsAfterASection] else []) ++
      (if !depthOk then [.invalidUnitForDepth] else []) ++
      (if !(ValidMnemonicCharacters.check s) then
        (ValidMnemonicCharacters.get_invalid_mnemonics s).map invalidCharsDiag else []) ++
      (if !(MnemonicStartsWithLetter.check s) then
        (MnemonicStartsWithLetter.get_invalid_starting_mnemonics s).map invalidStartDiag else []) ++
      dupCurvesDiags s ++
      LASFile.get_all_header_errors s)
  | _, _ => none

/-- Embeds `LASFile.get_non_conformities`: each call appends this call's diagnostics
to the persistent `self.non_conformities`, assigns `self.duplicate_curves`
inside the guarded branch, and returns the (grown) `self.non_conformities`.
The result pairs the post-call object state with the returned list. -/
def LASFile.get_non_conformities (s : LASState) : Option (LASState × List NonConformity) :=
  (freshNonConformities s).map fun fresh =>
    let nc := s.non_conformities ++ fresh
    let dups := dupCandidates s
    let s' := { s with
      non_conformities := nc,
      duplicate_curves := if dups.isEmpty then s.duplicate_curves else dups }
    (s', nc)

/-- The version normalization of `LASFile.read` (las.py 209-232).  Modelled
from the spec: the value of `Version.VERS` is produced by the header parser
(`reader.py` / `las_items.py`, not in the sources) and per the spec's §4.4
("absent defaults to 2.0; any value <2 normalizes to 1.2, any value ≥2
normalizes to 2") it is a number or absent, embedded as `Option ℚ`.  The
`assert version in (1.2, 2, None)` keeps 1.2 and 2 unchanged, its handler
maps other values below 2 to 1.2 and the rest to 2, and an absent value
(missing VERS item or missing Version section, both caught as `KeyError`)
defaults to 2. -/
def establishVersion (vers : Option ℚ) : ℚ :=
  match vers with
  | none => 2
  | some v => if v = 1.2 ∨ v = 2 then v else if v < 2 then 1.2 else 2

/-- The error taxonomy of `read`: the spec's `FormatError` is raised (as
`KeyError(tr("No ~ sections found. Is this a LAS file?"))`, las.py 167-168)
when the reader found no raw sections. -/
inductive FormatError where
  | noSectionsFound
deriving DecidableEq, Repr

/-- Modelled from the spec: a line "whose first non-space character is `~`"
opens a new raw section (`reader.read_file_contents`; `reader.py` is not in
the sources). -/
def isSectionStart (line : String) : Bool :=
  match line.toList.dropWhile (fun c => c.isWhitespace) with
  | [] => false
  | c :: _ => c == '~'

/-- Modelled from the spec: the raw-section scan of
`reader.read_file_contents` — a `~` line opens a new section titled by that
line, other lines belong to the currently open section and are dropped before
the first marker. -/
def splitRawSections : List String → Option (String × List String) →
    List (String × List String) → List (String × List String)
  | [], cur, acc => acc ++ cur.toList
  | l :: rest, cur, acc =>
    if isSectionStart l then
      splitRawSections rest (some (l, [])) (acc ++ cur.toList)
    else
      match cur with
      | none => splitRawSections rest none acc
      | some (t, ls) => splitRawSections rest (some (t, ls ++ [l])) acc

/-- Modelled from the spec: the raw sections `reader.read_file_contents`
returns for a line source. -/
def read_file_contents (lines : List String) : List (String × List String) :=
  splitRawSections lines none []

/-- The fatal guard of `LASFile.read` (las.py 167-168): with no raw sections
the read fails before any section of the document is assembled; otherwise the
raw sections flow on into document assembly. -/
def readCheck (lines : List String) : Except FormatError (List (String × List String)) :=
  let raw := read_file_contents lines
  if raw.length = 0 then .error .noSectionsFound else .ok raw

/-- Modelled from the spec: rule 9's own wording — "every mnemonic (curves,
well, parameters), checked against `originalMnemonic`".  Stated only to be
compared against the source's `ValidMnemonicCharacters.check`. -/
def specValidMnemonicCharsOnOriginal (s : LASState) : Bool :=
  ((s.sections.curves.getD []).all fun c => validMnemonic c.original_mnemonic) &&
  ((s.sections.well.getD []).all fun it => validMnemonic it.original_mnemonic) &&
  ((s.sections.parameter.getD []).all fun it => validMnemonic it.original_mnemonic)

/-- The claim's hypothesis for the hash rule: some curve/well/parameter
mnemonic contains the `#` character. -/
def containsHashMnemonic (s : LASState) : Bool :=
  ((s.sections.curves.getD []).any fun c => c.mnemonic.toList.contains '#') ||
  ((s.sections.well.getD []).any fun it => it.mnemonic.toList.contains '#') ||
  ((s.sections.parameter.getD []).any fun it => it.mnemonic.toList.contains '#')

/-- Recognizes the "Hash character (#) in mnemonic" diagnostic. -/
def isHashDiag : NonConformity → Bool
  | .hashCharacterInMnemonic _ _ => true
  | _ => false

/-- A header item as `read` builds one under the default `mnemonic_case`
policy and without key collisions: lookup mnemonic and original mnemonic
coincide. -/
def mkItem (m u : String) (ln : Nat) : HeaderItem :=
  { mnemonic := m, original_mnemonic := m, unit := u, line_number := some ln }

/-- A freshly constructed `LASFile` before any section is read: empty
sections mapping, cleared flags and lists (las.py 84-108). -/
def emptyState : LASState :=
  { sections := { version := none, well := none, curves := none,
                  parameter := none, ascii := none, other := none },
    duplicate_v_section := false, duplicate_w_section := false,
    duplicate_p_section := false, duplicate_c_section := false,
    duplicate_o_section := false, sections_after_a_section := false,
    v_section_first := false, blank_line_in_section := false,
    sections_with_blank_line := [], non_conformities := [],
    duplicate_curves := [], header_errors := [] }

/-- A Well section carrying every mandatory mnemonic (STRT/STOP/STEP in
metres) plus UWI and STAT. -/
def wellComplete : List HeaderItem :=
  [mkItem "STRT" "M" 4, mkItem "STOP" "M" 5, mkItem "STEP" "M" 6,
   mkItem "NULL" "" 7, mkItem "COMP" "" 8, mkItem "WELL" "" 9,
   mkItem "FLD" "" 10, mkItem "LOC" "" 11, mkItem "SRVC" "" 12,
   mkItem "DATE" "" 13, mkItem "UWI" "" 14, mkItem "STAT" "" 15]

/-- A document read from a file whose only defect is a missing `~A` section:
complete Version and Well sections, a metric DEPT index curve, `~V` first,
no blank lines and no header errors. -/
def docNoAscii : LASState :=
  { emptyState with
    sections := { emptyState.sections with
      version := some [mkItem "VERS" "" 2, mkItem "WRAP" "" 3],
      well := some wellComplete,
      curves := some [mkItem "DEPT" "M" 20] },
    v_section_first := true }

/-- A document whose Curves section holds two duplicate groups: `GR` on lines
10 and 11 and `SP` on lines 12 and 13; every section is present and the rest
of the file is conformant apart from the non-index first curve. -/
def docTwoDupGroups : LASState :=
  { emptyState with
    sections := { emptyState.sections with
      version := some [mkItem "VERS" "" 2, mkItem "WRAP" "" 3],
      well := some wellComplete,
      curves := some [mkItem "GR" "" 10, mkItem "GR" "" 11,
                      mkItem "SP" "" 12, mkItem "SP" "" 13],
      ascii := some "9999.0" },
    v_section_first := true }

/-- C1. `validate` is `LASFile.get_non_conformities`; it returns the
persistent, per-instance `self.non_conformities` list after appending this
call's findings to it, so a second call on the document returned by the first
yields a strictly longer list: on `docNoAscii` the first call returns the
missing-`~A` diagnostic once and the second call returns it twice.  The
validate-twice-yields-identical-lists property of the claim therefore fails;
the code contradicts the spec's stated fresh-recompute design (the spec's own
design notes flag this accumulating list as a source defect). -/
theorem validate_accumulates_across_calls :
    (LASFile.get_non_conformities docNoAscii).map (fun r => r.2) =
      some [NonConformity.missingMandatorySections ["~A"]] ∧
    ((LASFile.get_non_conformities docNoAscii).bind fun r =>
        LASFile.get_non_conformities r.1).map (fun r => r.2) =
      some [NonConformity.missingMandatorySections ["~A"],
            NonConformity.missingMandatorySections ["~A"]] := by
  constructor <;> rfl

/-- C4. Validation is not a pure function of the Document: one call of
`LASFile.get_non_conformities` on `docNoAscii` changes the
`non_conformities` field of the object from `[]` to the returned list. -/
theorem validate_mutates_document_fields :
    docNoAscii.non_conformities = [] ∧
    (LASFile.get_non_conformities docNoAscii).map (fun r => r.1.non_conformities) =
      some [NonConformity.missingMandatorySections ["~A"]] := by
  constructor <;> rfl

/-- C2. On a document with the two duplicate-curve groups `GR` (lines 10, 11)
and `SP` (lines 12, 13), `get_duplicate_curves_with_lines` finds both groups,
but `validate` emits a single duplicate-curves diagnostic describing only the
most recently seen group `SP` — the description-building statements sit
outside the loop over the groups (las.py 647-658), so the `GR` group and its
line numbers never reach a diagnostic, contrary to the claim's
one-diagnostic-per-group property. -/
theorem duplicate_curves_diag_names_only_last_group :
    DuplicateCurves.get_duplicate_curves_with_lines docTwoDupGroups =
      [("GR", [some 10, some 11]), ("SP", [some 12, some 13])] ∧
    (LASFile.get_non_conformities docTwoDupGroups).map (fun r => r.2) =
      some [NonConformity.invalidIndexMnemonic,
            NonConformity.duplicateCurveMnemonicsFound [("SP", [some 12, some 13])]] := by
  constructor <;> rfl

/-- Auxiliary for C3: with no section marker anywhere, the raw-section scan
returns only the already-accumulated sections and opens no new one. -/
theorem splitRawSections_no_marker (lines : List String)
    (h : ∀ l ∈ lines, isSectionStart l = false) (acc : List (String × List String)) :
    splitRawSections lines none acc = acc := by
  induction lines generalizing acc with
  | nil => simp [splitRawSections]
  | cons l rest ih =>
    have hl : isSectionStart l = false := h l (by simp)
    have hrest : ∀ x ∈ rest, isSectionStart x = false := fun x hx => h x (by simp [hx])
    simp [splitRawSections, hl, ih hrest]

/-- C3. For a source none of whose lines has `~` as its first non-space
character, the reader produces no raw sections, so `read` stops at its fatal
guard with the "No ~ sections found" failure (the spec's `FormatError`)
before any part of the document is assembled: the `Except` result carries the
error and no document data. -/
theorem read_fails_atomically_without_tilde_sections (lines : List String)
    (h : ∀ l ∈ lines, isSectionStart l = false) :
    readCheck lines = Except.error FormatError.noSectionsFound := by
  unfold readCheck read_file_contents
  rw [splitRawSections_no_marker lines h []]
  rfl

/-- C3 witness: a two-line source with no `~` anywhere. -/
theorem read_fails_atomically_without_tilde_sections_witness :
    readCheck ["hello", "DEPT.M 100.0 : depth"] = Except.error FormatError.noSectionsFound :=
  read_fails_atomically_without_tilde_sections _ (by decide)

/-- C9. The effective LAS version is a total function of the parsed
`Version.VERS` value: an absent value yields 2, every value below 2 yields
1.2 (the kept `assert` value 1.2 included), every value at least 2 yields 2
(the kept value 2 included); being a total function, its computation cannot
fail. -/
theorem effective_version_total_function :
    establishVersion none = 2 ∧
    (∀ v : ℚ, v < 2 → establishVersion (some v) = 1.2) ∧
    (∀ v : ℚ, 2 ≤ v → establishVersion (some v) = 2) := by
  refine ⟨rfl, fun v hv => ?_, fun v hv => ?_⟩
  · unfold establishVersion
    rcases eq_or_ne v 1.2 with h | h
    · simp [h]
    · have h2 : v ≠ 2 := by intro hc; rw [hc] at hv; norm_num at hv
      simp [h, h2, hv]
  · unfold establishVersion
    rcases eq_or_ne v 2 with h | h
    · simp [h]
    · have hlt : ¬v < 2 := not_lt.mpr hv
      have h12 : v ≠ 1.2 := by intro hc; rw [hc] at hv; norm_num at hv
      simp [h, h12, hlt]

/-- C9 witness: VERS 1.5 normalizes to 1.2 and VERS 3 to 2. -/
theorem effective_version_total_function_witness :
    establishVersion (some 1.5) = 1.2 ∧ establishVersion (some 3) = 2 :=
  ⟨effective_version_total_function.2.1 1.5 (by norm_num),
   effective_version_total_function.2.2 3 (by norm_num)⟩

/-- C10. On a document with no Curves entry in the sections mapping,
`ValidIndexMnemonic.check` reaches its trailing `return False` (the absence
counts as an invalid index mnemonic), while `DuplicateCurves.check` and
`ValidMnemonicCharacters.check_curves` return `True` (vacuous pass). -/
theorem missing_curves_rule_asymmetry (s : LASState)
    (h : s.sections.curves = none) :
    ValidIndexMnemonic.check s = some false ∧
    DuplicateCurves.check s = true ∧
    ValidMnemonicCharacters.check_curves s = true := by
  refine ⟨?_, ?_, ?_⟩
  · unfold ValidIndexMnemonic.check
    rw [h]
  · unfold DuplicateCurves.check
    rw [h]
  · unfold ValidMnemonicCharacters.check_curves
    rw [h]
    rfl

/-- C10 witness: the freshly constructed empty document has no Curves entry. -/
theorem missing_curves_rule_asymmetry_witness :
    ValidIndexMnemonic.check emptyState = some false ∧
    DuplicateCurves.check emptyState = true ∧
    ValidMnemonicCharacters.check_curves emptyState = true :=
  missing_curves_rule_asymmetry emptyState rfl

/-- C5. `ValidUnitForDepth` passes vacuously unless Curves and Well exist and
STRT, STOP, STEP are all present in Well; under those preconditions an index
curve named DEPT/DEPTH passes exactly when its unit is M, F or FT and equals
the STRT/STOP/STEP units, and any other index mnemonic passes regardless of
units. -/
theorem valid_depth_unit_characterization (s : LASState) :
    ((s.sections.curves = none ∨ s.sections.well = none) →
      ValidUnitForDepth.check s = some true) ∧
    (∀ w, s.sections.well = some w →
      (hasMnemonic w "STRT" && hasMnemonic w "STOP" && hasMnemonic w "STEP") = false →
      ValidUnitForDepth.check s = some true) ∧
    (∀ c0 rest w, s.sections.curves = some (c0 :: rest) → s.sections.well = some w →
      hasMnemonic w "STRT" = true → hasMnemonic w "STOP" = true →
      hasMnemonic w "STEP" = true →
      (((c0.mnemonic = "DEPT" ∨ c0.mnemonic = "DEPTH") →
        (ValidUnitForDepth.check s = some true ↔
          ((c0.unit = "M" ∨ c0.unit = "F" ∨ c0.unit = "FT") ∧
           unitOf w "STRT" = some c0.unit ∧ unitOf w "STOP" = some c0.unit ∧
           unitOf w "STEP" = some c0.unit))) ∧
       ((c0.mnemonic ≠ "DEPT" ∧ c0.mnemonic ≠ "DEPTH") →
        ValidUnitForDepth.check s = some true))) := by
  refine ⟨?_, ?_, ?_⟩
  · rintro (hc | hw)
    · rcases hW : s.sections.well with _ | w <;> simp [ValidUnitForDepth.check, hc, hW]
    · rcases hC : s.sections.curves with _ | cs <;> simp [ValidUnitForDepth.check, hC, hw]
  · intro w hw hfalse
    rcases hC : s.sections.curves with _ | cs
    · simp [ValidUnitForDepth.check, hC]
    · simp [ValidUnitForDepth.check, hC, hw, hfalse]
  · intro c0 rest w hc hw h1 h2 h3
    constructor
    · intro hd
      have hcond : (c0.mnemonic == "DEPT" || c0.mnemonic == "DEPTH") = true := by
        rcases hd with hd | hd <;> simp [hd]
      simp only [ValidUnitForDepth.check, hc, hw, h1, h2, h3, hcond]
      simp
      tauto
    · rintro ⟨hd1, hd2⟩
      have hcond : (c0.mnemonic == "DEPT" || c0.mnemonic == "DEPTH") = false := by
        simp [hd1, hd2]
      simp [ValidUnitForDepth.check, hc, hw, h1, h2, h3, hcond]

/-- A document with a TIME index curve and a complete Well section. -/
def docTimeCurve : LASState :=
  { emptyState with
    sections := { emptyState.sections with
      well := some wellComplete,
      curves := some [mkItem "TIME" "S" 20] } }

/-- C5 witness: a TIME index curve with a non-depth unit never triggers the
rule even though Curves, Well and STRT/STOP/STEP all exist. -/
theorem valid_depth_unit_characterization_witness :
    ValidUnitForDepth.check docTimeCurve = some true :=
  ((valid_depth_unit_characterization docTimeCurve).2.2 (mkItem "TIME" "S" 20) [] wellComplete
      rfl rfl (by decide) (by decide) (by decide)).2 (by decide)

/-- C6. For a document with a Well section, `MandatoryLinesInWellSection`
passes exactly when all ten unconditional mnemonics are present, UWI or API
is present, and one of PROV/CNTY/CTRY/STAT is present. -/
theorem mandatory_well_fields_characterization (s : LASState) (w : List HeaderItem)
    (h : s.sections.well = some w) :
    MandatoryLinesInWellSection.check s = true ↔
      ((∀ m ∈ ["STRT", "STOP", "STEP", "NULL", "COMP", "WELL", "FLD", "LOC", "SRVC", "DATE"],
          hasMnemonic w m = true) ∧
       (hasMnemonic w "UWI" = true ∨ hasMnemonic w "API" = true) ∧
       (hasMnemonic w "PROV" = true ∨ hasMnemonic w "CNTY" = true ∨
        hasMnemonic w "CTRY" = true ∨ hasMnemonic w "STAT" = true)) := by
  have key : MandatoryLinesInWellSection.check s =
      ((["STRT", "STOP", "STEP", "NULL", "COMP", "WELL", "FLD", "LOC", "SRVC", "DATE"].all
          fun m => hasMnemonic w m) &&
       (hasMnemonic w "UWI" || hasMnemonic w "API") &&
       (hasMnemonic w "PROV" || hasMnemonic w "CNTY" ||
        hasMnemonic w "CTRY" || hasMnemonic w "STAT")) := by
    simp only [MandatoryLinesInWellSection.check, h]
    cases hA : (["STRT", "STOP", "STEP", "NULL", "COMP", "WELL", "FLD", "LOC", "SRVC", "DATE"].all
        fun m => hasMnemonic w m) <;>
      cases hU : hasMnemonic w "UWI" <;> cases hAp : hasMnemonic w "API" <;>
      cases hP : hasMnemonic w "PROV" <;> cases hC : hasMnemonic w "CNTY" <;>
      cases hCt : hasMnemonic w "CTRY" <;> cases hSt : hasMnemonic w "STAT" <;> rfl
  rw [key]
  simp [Bool.and_eq_true, Bool.or_eq_true, List.all_eq_true, or_assoc, and_assoc]

/-- C6 witness: the complete Well section of `docNoAscii` satisfies the rule. -/
theorem mandatory_well_fields_characterization_witness :
    MandatoryLinesInWellSection.check docNoAscii = true :=
  (mandatory_well_fields_characterization docNoAscii wellComplete rfl).mpr (by decide)

/-- A document whose single Well item arose from a canonical-key collision:
the verbatim mnemonic is `GR` but the stored lookup key carries the
disambiguating suffix `GR:1` (spec §4.3; the suffix mechanism lives in
`las_items.py`, which is not in the sources). -/
def docSuffixedWellKey : LASState :=
  { emptyState with
    sections := { emptyState.sections with
      well := some [{ mnemonic := "GR:1", original_mnemonic := "GR",
                      unit := "", line_number := some 6 }] } }

/-- C7 counterexample: on `docSuffixedWellKey` every `original_mnemonic`
matches `[A-Za-z0-9_.-]`, yet `ValidMnemonicCharacters.check` fails — the
well (and parameter) loops judge `item.mnemonic`, the canonicalized lookup
key, not the verbatim `original_mnemonic` the claim names (spec.py 181/192
versus 170). -/
theorem mnemonic_chars_judged_on_lookup_key_cex :
    specValidMnemonicCharsOnOriginal docSuffixedWellKey = true ∧
    ValidMnemonicCharacters.check docSuffixedWellKey = false := by
  constructor <;> rfl

/-- C7 amended: `ValidMnemonicCharacters.check` passes exactly when every
curve's verbatim `original_mnemonic` and every well and parameter item's
canonicalized `mnemonic` (the lookup key — not the verbatim mnemonic)
consists only of characters from `[A-Za-z0-9_.-]`. -/
theorem mnemonic_chars_field_characterization (s : LASState) :
    ValidMnemonicCharacters.check s = true ↔
      ((∀ c ∈ s.sections.curves.getD [], validMnemonic c.original_mnemonic = true) ∧
       (∀ it ∈ s.sections.well.getD [], validMnemonic it.mnemonic = true) ∧
       (∀ it ∈ s.sections.parameter.getD [], validMnemonic it.mnemonic = true)) := by
  simp [ValidMnemonicCharacters.check, ValidMnemonicCharacters.check_curves,
        ValidMnemonicCharacters.check_well_section, ValidMnemonicCharacters.check_parameters,
        List.all_eq_true, Bool.and_eq_true, and_assoc]

/-- C7 witness: the rule passes on the document with a complete Well section
whose lookup keys and verbatim mnemonics are all plain. -/
theorem mnemonic_chars_field_characterization_witness :
    ValidMnemonicCharacters.check docNoAscii = true :=
  (mnemonic_chars_field_characterization docNoAscii).mpr (by decide)

/-- A document whose single Well item's mnemonic contains `#`. -/
def docHashWell : LASState :=
  { emptyState with
    sections := { emptyState.sections with
      well := some [mkItem "A#B" "" 5] },
    v_section_first := true }

/-- C8 counterexample: on `docHashWell` a mnemonic contains `#` and
`NoHashInMnemonics.check` fails, yet the list returned by `validate`
(`get_non_conformities`) contains zero hash diagnostics — the aggregator
never consults `NoHashInMnemonics` (the `#` only surfaces through the
`ValidMnemonicCharacters` diagnostic), so the claim's
"emits at least one diagnostic attributable to that rule" part fails. -/
theorem hash_rule_emits_no_diagnostic_cex :
    containsHashMnemonic docHashWell = true ∧
    NoHashInMnemonics.check docHashWell = false ∧
    (LASFile.get_non_conformities docHashWell).map (fun r => r.2.countP isHashDiag) =
      some 0 := by
  refine ⟨?_, ?_, ?_⟩ <;> rfl

/-- Membership in a singleton-or-empty conditional list. -/
theorem mem_ite_singleton {c : Prop} [Decidable c] {x d : NonConformity}
    (h : d ∈ if c then [x] else []) : d = x := by
  split at h <;> simp_all

/-- Membership in an empty-or-singleton conditional list. -/
theorem mem_ite_singleton_else {c : Prop} [Decidable c] {x d : NonConformity}
    (h : d ∈ if c then [] else [x]) : d = x := by
  split at h <;> simp_all

/-- Membership in a conditional list. -/
theorem mem_ite_list {c : Prop} [Decidable c] {l : List NonConformity} {d : NonConformity}
    (h : d ∈ if c then l else []) : d ∈ l := by
  split at h <;> simp_all

/-- No diagnostic synthesized during one `get_non_conformities` call is the
hash diagnostic. -/
theorem freshNonConformities_no_hash (s : LASState) (fresh : List NonConformity)
    (hf : freshNonConformities s = some fresh) :
    ∀ d ∈ fresh, isHashDiag d = false := by
  intro d hd
  unfold freshNonConformities at hf
  split at hf
  · rename_i idxOk depthOk heq
    have hfresh := Option.some.inj hf
    subst hfresh
    simp only [List.mem_append] at hd
    rcases hd with ((((((((((hd | hd) | hd) | hd) | hd) | hd) | hd) | hd) | hd) | hd) | hd) | hd
    · rw [mem_ite_singleton_else hd]; rfl
    · rw [mem_ite_singleton hd]; rfl
    · rw [mem_ite_singleton hd]; rfl
    · rw [mem_ite_singleton hd]; rfl
    · rw [mem_ite_singleton hd]; rfl
    · have := mem_ite_list hd
      rcases List.mem_map.1 this with ⟨n, _, rfl⟩
      rfl
    · rw [mem_ite_singleton hd]; rfl
    · rw [mem_ite_singleton hd]; rfl
    · have := mem_ite_list hd
      rcases List.mem_map.1 this with ⟨e, _, rfl⟩
      cases e <;> rfl
    · have := mem_ite_list hd
      rcases List.mem_map.1 this with ⟨e, _, rfl⟩
      cases e <;> rfl
    · unfold dupCurvesDiags at hd
      rcases hlast : (dupCandidates s).getLast? with _ | last <;> rw [hlast] at hd
      · simp at hd
      · rcases List.mem_singleton.1 hd with rfl
        rfl
    · rcases List.mem_map.1 hd with ⟨p, _, rfl⟩
      rfl
  · exact absurd hf (by simp)

/-- C8 amended: whenever some curve, well or parameter mnemonic contains the
`#` character, `NoHashInMnemonics.check` does fail, but `validate` never
emits a diagnostic attributable to that rule: the diagnostics a
`get_non_conformities` call synthesizes contain zero hash diagnostics (the
`#` instead surfaces through `ValidMnemonicCharacters`). -/
theorem hash_rule_fails_but_validate_emits_nothing (s : LASState)
    (fresh : List NonConformity) (hf : freshNonConformities s = some fresh)
    (hh : containsHashMnemonic s = true) :
    NoHashInMnemonics.check s = false ∧ fresh.countP isHashDiag = 0 := by
  constructor
  · rcases hb : NoHashInMnemonics.check s with _ | _
    · rfl
    · exfalso
      simp only [NoHashInMnemonics.check, Bool.and_eq_true, List.all_eq_true] at hb
      simp only [containsHashMnemonic, Bool.or_eq_true, List.any_eq_true] at hh
      rcases hh with (⟨c, hc, hcc⟩ | ⟨it, hit, hitc⟩) | ⟨it, hit, hitc⟩
      · have := hb.1.1 c hc
        simp at this
        exact this (by simpa using hcc)
      · have := hb.1.2 it hit
        simp at this
        exact this (by simpa using hitc)
      · have := hb.2 it hit
        simp at this
        exact this (by simpa using hitc)
  · exact List.countP_eq_zero.mpr fun d hd => by
      simp [freshNonConformities_no_hash s fresh hf d hd]

/-- C8 witness: the amended statement evaluated on `docHashWell`, whose
freshly synthesized diagnostics are known explicitly. -/
theorem hash_rule_fails_but_validate_emits_nothing_witness :
    NoHashInMnemonics.check docHashWell = false ∧
    ([NonConformity.missingMandatorySections ["~V", "~C", "~A"],
      NonConformity.missingMandatoryLinesInWSection,
      NonConformity.invalidCharsInMnemonic "A#B" "~W" ['#']].countP isHashDiag) = 0 :=
  hash_rule_fails_but_validate_emits_nothing docHashWell
    [NonConformity.missingMandatorySections ["~V", "~C", "~A"],
     NonConformity.missingMandatoryLinesInWSection,
     NonConformity.invalidCharsInMnemonic "A#B" "~W" ['#']] (by rfl) (by rfl)
